import Mathlib

/-!
Shallow embedding of `examples/viewer.py` (habitat-sim interactive viewer):
the control/timing/state layer that paces frames, accumulates time into
discrete agent actions, gates the fixed-rate physics step, and manages the
mouse interaction state machine with its grabber constraint handle.

Python floats are embedded as exact rationals (`ℚ`); `magnum` integer
vectors as `ℤ × ℤ`.  External collaborators (the physics engine, the scene
managers, the camera) are bundled in an `Env` structure whose fields record
the answers of the external queries the viewer makes; engine-side commands
performed by the viewer are recorded in an `Effect` trace.
-/

namespace Viewer

/-- Rational 3-vector, embedding `magnum.Vector3`. -/
structure Vec3 where
  x : ℚ
  y : ℚ
  z : ℚ
deriving DecidableEq

def Vec3.add (a b : Vec3) : Vec3 := ⟨a.x + b.x, a.y + b.y, a.z + b.z⟩

def Vec3.sub (a b : Vec3) : Vec3 := ⟨a.x - b.x, a.y - b.y, a.z - b.z⟩

/-- Scalar multiple, embedding `ray.direction * grip_depth`. -/
def Vec3.smul (c : ℚ) (a : Vec3) : Vec3 := ⟨c * a.x, c * a.y, c * a.z⟩

/-- Rational 3x3 matrix, embedding `magnum.Matrix3x3` rotation matrices. -/
structure Mat3 where
  m00 : ℚ
  m01 : ℚ
  m02 : ℚ
  m10 : ℚ
  m11 : ℚ
  m12 : ℚ
  m20 : ℚ
  m21 : ℚ
  m22 : ℚ
deriving DecidableEq

/-- Matrix product, embedding the `@` in `object_frame.to_matrix() @ node.rotation.to_matrix()`. -/
def Mat3.mul (a b : Mat3) : Mat3 :=
  ⟨a.m00 * b.m00 + a.m01 * b.m10 + a.m02 * b.m20,
   a.m00 * b.m01 + a.m01 * b.m11 + a.m02 * b.m21,
   a.m00 * b.m02 + a.m01 * b.m12 + a.m02 * b.m22,
   a.m10 * b.m00 + a.m11 * b.m10 + a.m12 * b.m20,
   a.m10 * b.m01 + a.m11 * b.m11 + a.m12 * b.m21,
   a.m10 * b.m02 + a.m11 * b.m12 + a.m12 * b.m22,
   a.m20 * b.m00 + a.m21 * b.m10 + a.m22 * b.m20,
   a.m20 * b.m01 + a.m21 * b.m11 + a.m22 * b.m21,
   a.m20 * b.m02 + a.m21 * b.m12 + a.m22 * b.m22⟩

def Mat3.identity : Mat3 := ⟨1, 0, 0, 0, 1, 0, 0, 0, 1⟩

/-- Integer screen-space 2-vector (`magnum.Vector2i`). -/
abbrev Vec2i := ℤ × ℤ

/-- Ray returned by `render_camera.unproject` and passed to `sim.cast_ray`. -/
structure Ray where
  origin : Vec3
  direction : Vec3

/-- First-hit record of `raycast_results.hits[0]` (`object_id`, world point). -/
structure HitInfo where
  object_id : ℤ
  point : Vec3
deriving DecidableEq

/-- The `MouseMode` enum of viewer.py: `LOOK = 0`, `GRAB = 1`. -/
inductive MouseMode where
  | LOOK
  | GRAB
deriving DecidableEq

/-- The `.value` of a `MouseMode` member. -/
def MouseMode.value : MouseMode → ℕ
  | .LOOK => 0
  | .GRAB => 1

/-- The `MouseMode(v)` enum constructor-by-value.  viewer.py only applies it to
`(value + 1) % len(MouseMode)`, which lies in `{0, 1}`; all other inputs would
raise in Python and are mapped to `GRAB` here (unreached). -/
def MouseMode.fromValue : ℕ → MouseMode
  | 0 => .LOOK
  | _ => .GRAB

/-- `len(MouseMode)`: the number of members of the `MouseMode` enum. -/
def mouseModeCount : ℕ := 2

/-- `HabitatSimInteractiveViewer.cycle_mouse_mode`:
`MouseMode((self.mouse_interaction.value + 1) % len(MouseMode))`. -/
def cycle_mouse_mode (m : MouseMode) : MouseMode :=
  MouseMode.fromValue ((m.value + 1) % mouseModeCount)

/-- The movement keys: exactly the keys of the `self.pressed` dict
(viewer.py lines 38-49) and of the `self.key_to_action` dict (lines 53-64). -/
inductive MovementKey where
  | UP
  | DOWN
  | LEFT
  | RIGHT
  | A
  | D
  | S
  | W
  | X
  | Z
deriving DecidableEq, Fintype

/-- One-shot command keys handled by `key_press_event`; `OTHER` stands for any
key bound to none of the handled commands and to no movement action. -/
inductive CommandKey where
  | ESC
  | H
  | SPACE
  | PERIOD
  | M
  | R
  | V
  | OTHER
deriving DecidableEq

/-- A keyboard key: either a movement key (a key of `self.pressed`) or not. -/
inductive Key where
  | movement (k : MovementKey)
  | command (c : CommandKey)
deriving DecidableEq

/-- Insertion order of the `self.pressed` dict (viewer.py lines 38-49), which
is also the insertion order of the `self.key_to_action` binding dict
(lines 53-64): the two dicts list the same keys in the same order.  Python
dicts iterate in insertion order, so `press.items()` in `move_and_look`
yields the keys in this fixed order, independent of when keys were pressed. -/
def pressed_keys_order : List MovementKey :=
  [.UP, .DOWN, .LEFT, .RIGHT, .A, .D, .S, .W, .X, .Z]

/-- The `self.key_to_action` binding dict (viewer.py lines 53-64) as a map. -/
def key_to_action : MovementKey → String
  | .UP => "look_up"
  | .DOWN => "look_down"
  | .LEFT => "turn_left"
  | .RIGHT => "turn_right"
  | .A => "move_left"
  | .D => "move_right"
  | .S => "move_backward"
  | .W => "move_forward"
  | .X => "move_down"
  | .Z => "move_up"

/-- The `physics.RigidConstraintType` enum values used by viewer.py. -/
inductive RigidConstraintType where
  | PointToPoint
  | Fixed
deriving DecidableEq

/-- `physics.RigidConstraintSettings`, restricted to the fields viewer.py
writes.  The engine-side default for `constraint_type` is `PointToPoint`
(viewer.py line 398: by default use a point 2 point constraint). -/
structure RigidConstraintSettings where
  object_id_a : ℤ
  link_id_a : ℤ
  pivot_a : Vec3
  frame_a : Mat3
  frame_b : Mat3
  pivot_b : Vec3
  constraint_type : RigidConstraintType
deriving DecidableEq

/-- The `MouseGrabber` object: its `settings`, its `grip_depth` and the
engine-assigned `constraint_id` from `sim.create_rigid_constraint(settings)`. -/
structure MouseGrabber where
  settings : RigidConstraintSettings
  grip_depth : ℚ
  constraint_id : ℕ
deriving DecidableEq

/-- Engine/render/log commands issued by the viewer, recorded as a trace. -/
inductive Effect where
  | clearFrame
  | agentAct (action : String)
  | stepWorld (dt : ℚ)
  | drawObservation
  | swapBuffers
  | redraw
  | acceptEvent
  | createConstraint (id : ℕ) (settings : RigidConstraintSettings)
  | updateConstraint (id : ℕ) (settings : RigidConstraintSettings)
  | removeConstraint (id : ℕ)
  | zoomCamera (factor : ℚ)
  | logWarn (msg : String)
  | logInfo (msg : String)
  | printHelp
  | exitApp
  | reconfigureSim
  | invertGravity
deriving DecidableEq

def Effect.isStepWorld : Effect → Bool
  | .stepWorld _ => true
  | _ => false

def Effect.isAgentAct : Effect → Bool
  | .agentAct _ => true
  | _ => false

/-- Scene-node data of an external rigid/articulated object as viewer.py reads
it: the value of `node.transformation.inverted().transform_point(p)` as a
function of `p`, and the matrix of `node.rotation.inverted()`.  The matrix
inversions are carried out inside the external magnum library, so they are
supplied here as data. -/
structure SceneNodeData where
  transformation_inverted_transform_point : Vec3 → Vec3
  rotation_inverted : Mat3

/-- An articulated object as viewer.py reads it: its `object_id`, its
`link_object_ids` dict (hit object id -> link index), its base node, and its
per-link scene nodes (`get_link_scene_node`). -/
structure ArtObjData where
  object_id : ℤ
  link_object_ids : List (ℤ × ℤ)
  node : SceneNodeData
  get_link_scene_node : ℤ → SceneNodeData

/-- External collaborator snapshot: each field records the answer the external
engine/camera/window gives to the corresponding query of viewer.py at the
moment the handler runs. -/
structure Env where
  /-- Truthiness of `sim.get_physics_simulation_library()` (line 332). -/
  physics_enabled : Bool
  /-- `self.sim.config.sim_cfg.enable_physics` (line 250). -/
  enable_physics : Bool
  /-- `render_camera.unproject(point)`. -/
  unproject : Vec2i → Ray
  /-- `self.sim.cast_ray(ray).hits`; empty list when `has_hits()` is false. -/
  cast_ray : Ray → List HitInfo
  /-- `ro_mngr.get_object_by_id(id)` (None when absent). -/
  get_rigid_object_by_id : ℤ → Option SceneNodeData
  /-- `ao_mngr.get_object_by_id(id)` (None when absent). -/
  get_articulated_object_by_id : ℤ → Option ArtObjData
  /-- The articulated objects visited by `get_objects_by_handle_substring`,
  in iteration order. -/
  articulated_objects : List ArtObjData
  /-- `render_camera.node.absolute_translation`. -/
  camera_absolute_translation : Vec3
  /-- `self.agent_body_node.rotation.to_matrix()`. -/
  agent_rotation : Mat3
  /-- `magnum.Vector3.length()` of its argument; the external library computes
  the Euclidean norm, which leaves `ℚ`, so it is supplied as data. -/
  vec_length : Vec3 → ℚ
  /-- `self.framebuffer_size`. -/
  framebuffer_size : Vec2i
  /-- `self.window_size`. -/
  window_size : Vec2i

/-- Mutable state of `HabitatSimInteractiveViewer` touched by the handlers. -/
structure ViewerState where
  mouse_interaction : MouseMode
  mouse_grabber : Option MouseGrabber
  previous_mouse_point : Option Vec2i
  simulating : Bool
  simulate_single_step : Bool
  time_since_last_simulation : ℚ
  pressed : MovementKey → Bool
  /-- Next engine-assigned rigid-constraint id. -/
  next_constraint_id : ℕ

/-- `HabitatSimInteractiveViewer.get_mouse_position`: screen position scaled
by `framebuffer_size / window_size`.  `magnum.Vector2i` division is C++
integer division, truncating toward zero (`Int.tdiv`). -/
def get_mouse_position (env : Env) (mouse_event_position : Vec2i) : Vec2i :=
  let scaling : Vec2i :=
    (env.framebuffer_size.1.tdiv env.window_size.1,
     env.framebuffer_size.2.tdiv env.window_size.2)
  (mouse_event_position.1 * scaling.1, mouse_event_position.2 * scaling.2)

/-- `HabitatSimInteractiveViewer.update_grab_position`: recompute the
anchor-side pivot by unprojecting the point, walking `grip_depth` along the
ray direction from the camera, and push `frame_b`/`pivot_b` to the engine
via `MouseGrabber.update_transform`. -/
def update_grab_position (env : Env) (s : ViewerState) (point : Vec2i) :
    ViewerState × List Effect :=
  match s.mouse_grabber with
  | none => (s, [])
  | some g =>
      let ray := env.unproject point
      let rotation : Mat3 := env.agent_rotation
      let translation : Vec3 :=
        Vec3.add env.camera_absolute_translation (Vec3.smul g.grip_depth ray.direction)
      let settings2 : RigidConstraintSettings :=
        { g.settings with frame_b := rotation, pivot_b := translation }
      ({ s with mouse_grabber := some { g with settings := settings2 } },
       [Effect.updateConstraint g.constraint_id settings2])

/-- `HabitatSimInteractiveViewer.move_and_look`: short-circuit on
`repetitions == 0`; otherwise build the action queue by iterating the
`self.pressed` dict in insertion order, keep the actions whose flag is set,
replay the whole queue once per repetition, then (grabber present) refresh
the grabber transform at the previous mouse point.  A `None` previous mouse
point with a live grabber would raise in Python; it cannot occur because the
press that creates the grabber records the point first. -/
def move_and_look (env : Env) (s : ViewerState) (repetitions : ℤ) :
    ViewerState × List Effect :=
  if repetitions = 0 then (s, [])
  else
    let action_queue : List String :=
      (pressed_keys_order.filter s.pressed).map key_to_action
    let act_effects : List Effect :=
      (List.range repetitions.toNat).flatMap fun _ => action_queue.map Effect.agentAct
    match s.mouse_grabber with
    | some _ =>
        match s.previous_mouse_point with
        | some p =>
            let upd := update_grab_position env s p
            (upd.1, act_effects ++ upd.2)
        | none => (s, act_effects)
    | none => (s, act_effects)

/-- Truncation toward zero: Python `int()` applied to a float. -/
def int_trunc (x : ℚ) : ℤ := if 0 ≤ x then ⌊x⌋ else ⌈x⌉

/-- `math.fmod` for the nonnegative modulus and argument used by viewer.py:
`fmod x y = x - y * ⌊x / y⌋`. -/
def fmod (x y : ℚ) : ℚ := x - y * ⌊x / y⌋

/-- `agent_acts_per_sec = 60.0` (viewer.py line 93). -/
def agent_acts_per_sec : ℚ := 60

/-- `HabitatSimInteractiveViewer.draw_event`, taking the frame duration
`d = Timer.prev_frame_duration` as input: accumulate time, derive the agent
action count, replay actions via `move_and_look`, gate the single fixed
physics step on `time_since_last_simulation >= 1/60` and on
`simulating or simulate_single_step`, reduce the accumulator with
`math.fmod`, then draw, swap and request a redraw. -/
def draw_event (env : Env) (d : ℚ) (s : ViewerState) : ViewerState × List Effect :=
  let t : ℚ := s.time_since_last_simulation + d
  let num_agent_actions : ℤ := int_trunc (t * agent_acts_per_sec)
  let ml := move_and_look env { s with time_since_last_simulation := t } num_agent_actions
  let stepped : ViewerState × List Effect :=
    if 1 / 60 ≤ t then
      if ml.1.simulating || ml.1.simulate_single_step then
        ({ ml.1 with
            time_since_last_simulation := fmod t (1 / 60),
            simulate_single_step := false },
         [Effect.stepWorld (1 / 60)])
      else
        ({ ml.1 with time_since_last_simulation := fmod t (1 / 60) }, [])
    else (ml.1, [])
  (stepped.1,
   Effect.clearFrame ::
     (ml.2 ++ stepped.2 ++ [Effect.drawObservation, Effect.swapBuffers, Effect.redraw]))

/-- The result of the hit-resolution block of `mouse_press_event`
(viewer.py lines 341-383): either the resolved `hit_object` and `ao_link`
ids with the computed `object_pivot` and `object_frame`, or nothing
(`hit_object` stayed `-1`). -/
inductive HitResolution where
  | found (hit_object : ℤ) (ao_link : ℤ) (object_pivot : Vec3) (object_frame : Mat3)
  | notFound
deriving Inhabited

/-- The `for ao_handle in ao_mngr.get_objects_by_handle_substring()` scan
(viewer.py lines 366-382): the first articulated object whose
`link_object_ids` dict contains the hit id yields the link pivot/frame and
its own `object_id`; the loop then breaks. -/
def scan_articulated_links (aos : List ArtObjData) (hit_info : HitInfo) : HitResolution :=
  match aos with
  | [] => .notFound
  | ao :: rest =>
      match ao.link_object_ids.lookup hit_info.object_id with
      | some ao_link =>
          .found ao.object_id ao_link
            ((ao.get_link_scene_node ao_link).transformation_inverted_transform_point
              hit_info.point)
            ((ao.get_link_scene_node ao_link).rotation_inverted)
      | none => scan_articulated_links rest hit_info

/-- Hit resolution order of `mouse_press_event` (viewer.py lines 344-383):
(a) a rigid object owning the hit id; (b) an articulated object owning the
hit id directly (base link, `ao_link` stays `-1`); (c) the link scan. -/
def resolve_hit (env : Env) (hit_info : HitInfo) : HitResolution :=
  match env.get_rigid_object_by_id hit_info.object_id with
  | some ro =>
      .found hit_info.object_id (-1)
        (ro.transformation_inverted_transform_point hit_info.point)
        ro.rotation_inverted
  | none =>
      match env.get_articulated_object_by_id hit_info.object_id with
      | some ao =>
          .found hit_info.object_id (-1)
            (ao.node.transformation_inverted_transform_point hit_info.point)
            ao.node.rotation_inverted
      | none => scan_articulated_links env.articulated_objects hit_info

/-- The mouse buttons of `Application.MouseEvent.Button`. -/
inductive MouseButton where
  | LEFT
  | RIGHT
  | MIDDLE
deriving DecidableEq

/-- The `constraint_settings` block of `mouse_press_event` (lines 387-402):
identity fields from the resolution, `frame_a` the product of the object
frame with the agent rotation, `frame_b` the agent rotation, `pivot_b` the
world hit point; `constraint_type` is the engine default `PointToPoint`
unless the right button overwrites it with `Fixed`. -/
def build_grab_constraint_settings (env : Env) (button : MouseButton)
    (hit_object ao_link : ℤ) (object_pivot : Vec3) (object_frame : Mat3)
    (hit_point : Vec3) : RigidConstraintSettings :=
  { object_id_a := hit_object
    link_id_a := ao_link
    pivot_a := object_pivot
    frame_a := Mat3.mul object_frame env.agent_rotation
    frame_b := env.agent_rotation
    pivot_b := hit_point
    constraint_type :=
      if button = MouseButton.RIGHT then RigidConstraintType.Fixed
      else RigidConstraintType.PointToPoint }

/-- `HabitatSimInteractiveViewer.mouse_press_event`.  In GRAB mode with the
physics library enabled it unprojects the scaled mouse point, casts a ray,
resolves the first hit, and on success unconditionally assigns a fresh
`MouseGrabber` (creating the engine constraint); rebinding
`self.mouse_grabber` drops the previous grabber, whose CPython finalizer
removes its constraint (so a replaced grabber yields a `removeConstraint`
right after the `createConstraint`).  In every case the handler then records
the scaled mouse position, requests a redraw and accepts the event. -/
def mouse_press_event (env : Env) (button : MouseButton) (position : Vec2i)
    (s : ViewerState) : ViewerState × List Effect :=
  let picked : ViewerState × List Effect :=
    if s.mouse_interaction = MouseMode.GRAB ∧ env.physics_enabled = true then
      let ray := env.unproject (get_mouse_position env position)
      match env.cast_ray ray with
      | [] => (s, [])
      | hit_info :: _ =>
          if 0 ≤ hit_info.object_id then
            match resolve_hit env hit_info with
            | .found hit_object ao_link object_pivot object_frame =>
                if 0 ≤ hit_object then
                  let cs := build_grab_constraint_settings env button hit_object
                    ao_link object_pivot object_frame hit_info.point
                  let grip_depth := env.vec_length
                    (Vec3.sub hit_info.point env.camera_absolute_translation)
                  let finalized : List Effect :=
                    match s.mouse_grabber with
                    | some old => [Effect.removeConstraint old.constraint_id]
                    | none => []
                  ({ s with
                      mouse_grabber :=
                        some ⟨cs, grip_depth, s.next_constraint_id⟩,
                      next_constraint_id := s.next_constraint_id + 1 },
                   Effect.createConstraint s.next_constraint_id cs :: finalized)
                else
                  (s, [Effect.logWarn "Oops, could not find the hit object. That is odd."])
            | .notFound =>
                (s, [Effect.logWarn "Oops, could not find the hit object. That is odd."])
          else (s, [])
    else (s, [])
  ({ picked.1 with previous_mouse_point := some (get_mouse_position env position) },
   picked.2 ++ [Effect.redraw, Effect.acceptEvent])

/-- `HabitatSimInteractiveViewer.mouse_release_event`: `del self.mouse_grabber`
runs the grabber finalizer (removing the engine constraint) when one exists,
then the handle is rebound to `None` and the event accepted. -/
def mouse_release_event (s : ViewerState) : ViewerState × List Effect :=
  match s.mouse_grabber with
  | some g =>
      ({ s with mouse_grabber := none },
       [Effect.removeConstraint g.constraint_id, Effect.acceptEvent])
  | none => (s, [Effect.acceptEvent])

/-- `HabitatSimInteractiveViewer.mouse_scroll_event`: pick the dominant scroll
axis, return silently when it is zero; LOOK mode zooms the camera
multiplicatively, GRAB mode with a live grabber bumps `grip_depth` by the
scroll value scaled by `0.1` (shift) or `0.01` and immediately refreshes the
grabber transform at the scaled mouse position. -/
def mouse_scroll_event (env : Env) (offset : ℚ × ℚ) (position : Vec2i)
    (shift_pressed : Bool) (s : ViewerState) : ViewerState × List Effect :=
  let scroll_mod_val : ℚ := if |offset.2| > |offset.1| then offset.2 else offset.1
  if scroll_mod_val = 0 then (s, [])
  else if s.mouse_interaction = MouseMode.LOOK then
    let mod_val : ℚ := if shift_pressed then 101 / 100 else 11 / 10
    let m : ℚ := if 0 < scroll_mod_val then mod_val else 1 / mod_val
    (s, [Effect.zoomCamera m, Effect.redraw, Effect.acceptEvent])
  else
    match s.mouse_grabber with
    | some g =>
        if s.mouse_interaction = MouseMode.GRAB then
          let mod_val : ℚ := if shift_pressed then 1 / 10 else 1 / 100
          let g2 : MouseGrabber :=
            { g with grip_depth := g.grip_depth + scroll_mod_val * mod_val }
          let upd := update_grab_position env { s with mouse_grabber := some g2 }
            (get_mouse_position env position)
          (upd.1, upd.2 ++ [Effect.acceptEvent])
        else (s, [Effect.acceptEvent])
    | none => (s, [Effect.acceptEvent])

/-- The tail shared by every branch of `key_press_event` other than ESC
(viewer.py lines 276-279): movement keys set their held flag, every key is
accepted and triggers a redraw. -/
def key_press_common (k : Key) (s : ViewerState) (eff : List Effect) :
    ViewerState × List Effect :=
  let s2 : ViewerState :=
    match k with
    | .movement mk => { s with pressed := fun j => if j = mk then true else s.pressed j }
    | .command _ => s
  (s2, eff ++ [Effect.acceptEvent, Effect.redraw])

/-- `HabitatSimInteractiveViewer.key_press_event`.  ESC exits immediately;
SPACE warns without flipping `simulating` when physics was disabled at
configuration time, and flips it otherwise; PERIOD warns when already
simulating and otherwise arms a single step; M cycles the mouse mode;
R reconfigures; V inverts gravity; movement keys set their held flag. -/
def key_press_event (env : Env) (k : Key) (s : ViewerState) :
    ViewerState × List Effect :=
  match k with
  | .command .ESC => (s, [Effect.acceptEvent, Effect.exitApp])
  | .command .H => key_press_common k s [Effect.printHelp]
  | .command .SPACE =>
      if env.enable_physics = false then
        key_press_common k s
          [Effect.logWarn "Warning: physics was not enabled during setup"]
      else
        key_press_common k { s with simulating := !s.simulating }
          [Effect.logInfo ("Command: physics simulating set to " ++ toString (!s.simulating))]
  | .command .PERIOD =>
      if s.simulating then
        key_press_common k s
          [Effect.logWarn "Warning: physic simulation already running"]
      else
        key_press_common k { s with simulate_single_step := true }
          [Effect.logInfo "Command: physics step taken"]
  | .command .M =>
      key_press_common k
        { s with mouse_interaction := cycle_mouse_mode s.mouse_interaction }
        [Effect.logInfo "Command: mouse mode changed"]
  | .command .R =>
      key_press_common k s [Effect.reconfigureSim, Effect.logInfo "Command: simulator re-loaded"]
  | .command .V =>
      key_press_common k s [Effect.invertGravity, Effect.logInfo "Command: gravity inverted"]
  | .command .OTHER => key_press_common k s []
  | .movement _ => key_press_common k s []

/-- `HabitatSimInteractiveViewer.key_release_event`: movement keys clear their
held flag; every key is accepted and triggers a redraw. -/
def key_release_event (k : Key) (s : ViewerState) : ViewerState × List Effect :=
  let s2 : ViewerState :=
    match k with
    | .movement mk => { s with pressed := fun j => if j = mk then false else s.pressed j }
    | .command _ => s
  (s2, [Effect.acceptEvent, Effect.redraw])

/-! ## Concrete sample values used by witnesses and counterexamples -/

/-- An environment with no scene content: no hits, no objects, matching
framebuffer and window sizes. -/
def env0 : Env :=
  { physics_enabled := true
    enable_physics := true
    unproject := fun _ => ⟨⟨0, 0, 0⟩, ⟨0, 0, 1⟩⟩
    cast_ray := fun _ => []
    get_rigid_object_by_id := fun _ => none
    get_articulated_object_by_id := fun _ => none
    articulated_objects := []
    camera_absolute_translation := ⟨0, 0, 0⟩
    agent_rotation := Mat3.identity
    vec_length := fun _ => 0
    framebuffer_size := (800, 600)
    window_size := (800, 600) }

/-- The viewer state right after `__init__`: LOOK mode, no grabber, no
previous mouse point, simulating, zero accumulated time, no key held. -/
def state0 : ViewerState :=
  { mouse_interaction := MouseMode.LOOK
    mouse_grabber := none
    previous_mouse_point := none
    simulating := true
    simulate_single_step := false
    time_since_last_simulation := 0
    pressed := fun _ => false
    next_constraint_id := 0 }

def settings0 : RigidConstraintSettings :=
  { object_id_a := 7
    link_id_a := -1
    pivot_a := ⟨0, 0, 0⟩
    frame_a := Mat3.identity
    frame_b := Mat3.identity
    pivot_b := ⟨0, 0, 0⟩
    constraint_type := RigidConstraintType.PointToPoint }

/-- A live grabber holding object 7 at grip depth 2 via engine constraint 0. -/
def grabber0 : MouseGrabber := ⟨settings0, 2, 0⟩

/-- An environment whose scene contains one rigid object with id 7 that the
one cast ray hits at world point (1, 2, 3). -/
def roNode : SceneNodeData :=
  { transformation_inverted_transform_point := fun v => v
    rotation_inverted := Mat3.identity }

def env3 : Env :=
  { env0 with
    cast_ray := fun _ => [⟨7, ⟨1, 2, 3⟩⟩]
    get_rigid_object_by_id := fun i => if i = 7 then some roNode else none
    vec_length := fun _ => 5 }

/-- GRAB mode with a live grabber already present (engine constraint 0 in
use, next engine id 1). -/
def s3 : ViewerState :=
  { state0 with
    mouse_interaction := MouseMode.GRAB
    mouse_grabber := some grabber0
    next_constraint_id := 1 }

/-- An environment with physics disabled at configuration time. -/
def env2 : Env := { env0 with enable_physics := false }

/-- GRAB mode with the physics simulation library disabled. -/
def env10 : Env := { env0 with physics_enabled := false }

def s10 : ViewerState := { state0 with mouse_interaction := MouseMode.GRAB }

/-- GRAB mode with a live grabber, used by the scroll witness. -/
def s8 : ViewerState :=
  { state0 with
    mouse_interaction := MouseMode.GRAB
    mouse_grabber := some grabber0
    previous_mouse_point := some (0, 0)
    next_constraint_id := 1 }

/-- A state with only a grabber, used by the release witness. -/
def s5 : ViewerState := { state0 with mouse_grabber := some grabber0 }

/-! ## C6: mode cycling -/

/-- C6: Cycling the interaction mode once advances to the next mode of the
fixed ordered enumeration LOOK, GRAB with wrap-around, and cycling
`len(MouseMode)` times from any starting mode returns to it. -/
theorem cycle_mouse_mode_wraps :
    cycle_mouse_mode MouseMode.LOOK = MouseMode.GRAB ∧
    cycle_mouse_mode MouseMode.GRAB = MouseMode.LOOK ∧
    ∀ m : MouseMode, cycle_mouse_mode^[mouseModeCount] m = m := by
  refine ⟨rfl, rfl, ?_⟩
  intro m
  cases m <;> rfl

/-! ## C9: `move_and_look` short-circuit on zero repetitions -/

/-- C9: With repetition count 0, `move_and_look` returns immediately: the
state is unchanged (in particular the grabber pivot and frame are not
recomputed) and no effect — no agent action, no constraint update — is
issued, for every state, including states with a live grabber. -/
theorem move_and_look_zero_short_circuits (env : Env) (s : ViewerState) :
    move_and_look env s 0 = (s, []) := rfl

/-! ## C5: mouse release destroys the grabber and is idempotent -/

/-- C5: On mouse release, a live grabber is destroyed — the engine constraint
is removed — and the handle is cleared to none; with no grabber the state is
unchanged and only the event acceptance is signalled, so releasing twice in
a row leaves exactly the state of releasing once. -/
theorem mouse_release_destroys_and_is_idempotent (s : ViewerState) (g : MouseGrabber) :
    (s.mouse_grabber = some g →
      (mouse_release_event s).1.mouse_grabber = none ∧
      (mouse_release_event s).2 =
        [Effect.removeConstraint g.constraint_id, Effect.acceptEvent]) ∧
    (s.mouse_grabber = none →
      (mouse_release_event s).1 = s ∧ (mouse_release_event s).2 = [Effect.acceptEvent]) ∧
    mouse_release_event (mouse_release_event s).1 =
      ((mouse_release_event s).1, [Effect.acceptEvent]) := by
  refine ⟨?_, ?_, ?_⟩
  · intro hg
    simp [mouse_release_event, hg]
  · intro hn
    simp [mouse_release_event, hn]
  · rcases h : s.mouse_grabber with _ | g2 <;> simp [mouse_release_event, h]

/-- C5 witness: releasing with the concrete grabber destroys constraint 0 and
clears the handle. -/
theorem mouse_release_witness :
    (mouse_release_event s5).1.mouse_grabber = none ∧
    (mouse_release_event s5).2 =
      [Effect.removeConstraint grabber0.constraint_id, Effect.acceptEvent] :=
  (mouse_release_destroys_and_is_idempotent s5 grabber0).1 rfl

/-! ## C10: grab-mode press with the physics library disabled -/

/-- C10: In GRAB mode with the physics simulation library disabled, a mouse
press creates no grabber and no constraint and performs no pick: the
complete observable outcome is that the scaled mouse position is recorded as
the previous mouse point, a redraw is requested and the event is accepted. -/
theorem mouse_press_grab_physics_disabled (env : Env) (button : MouseButton)
    (position : Vec2i) (s : ViewerState)
    (hmode : s.mouse_interaction = MouseMode.GRAB)
    (hpe : env.physics_enabled = false) :
    mouse_press_event env button position s =
      ({ s with previous_mouse_point := some (get_mouse_position env position) },
       [Effect.redraw, Effect.acceptEvent]) := by
  have hc : ¬(s.mouse_interaction = MouseMode.GRAB ∧ env.physics_enabled = true) := by
    rintro ⟨-, h2⟩
    rw [hpe] at h2
    cases h2
  simp only [mouse_press_event, if_neg hc, List.nil_append]

/-- C10 witness: at the concrete disabled environment the press only records
the scaled point (scaling is 1 here), redraws and accepts. -/
theorem mouse_press_grab_physics_disabled_witness :
    s10.mouse_interaction = MouseMode.GRAB ∧ env10.physics_enabled = false ∧
    mouse_press_event env10 MouseButton.LEFT (100, 50) s10 =
      ({ s10 with previous_mouse_point := some ((100 : ℤ), (50 : ℤ)) },
       [Effect.redraw, Effect.acceptEvent]) :=
  ⟨rfl, rfl, mouse_press_grab_physics_disabled env10 MouseButton.LEFT (100, 50) s10 rfl rfl⟩

/-! ## C2: SPACE with physics disabled (corrected) -/

/-- C2 counterexample to the claim as stated: with physics disabled at
configuration time and `simulating = true`, pressing SPACE logs the warning
but leaves `simulating` equal to `true` — the toggle does NOT flip the flag
(the claim says the state change is still applied). -/
theorem c2_space_does_not_flip_counterexample :
    env2.enable_physics = false ∧
    state0.simulating = true ∧
    (key_press_event env2 (Key.command CommandKey.SPACE) state0).1.simulating = true ∧
    (key_press_event env2 (Key.command CommandKey.SPACE) state0).2 =
      [Effect.logWarn "Warning: physics was not enabled during setup",
       Effect.acceptEvent, Effect.redraw] :=
  ⟨rfl, rfl, rfl, rfl⟩

/-- C2 amended: when SPACE is pressed while the physics engine was disabled
at configuration time, a warning is logged and the handler completes
normally (the event is accepted and a redraw requested — no error), but the
simulating flag is left unchanged: the flip is suppressed, not applied. -/
theorem space_toggle_physics_disabled_no_flip (env : Env) (s : ViewerState)
    (h : env.enable_physics = false) :
    key_press_event env (Key.command CommandKey.SPACE) s =
      (s, [Effect.logWarn "Warning: physics was not enabled during setup",
           Effect.acceptEvent, Effect.redraw]) := by
  simp only [key_press_event, if_pos h]
  rfl

/-- C2 witness: the amended statement at the concrete disabled environment. -/
theorem space_toggle_physics_disabled_witness :
    env2.enable_physics = false ∧
    key_press_event env2 (Key.command CommandKey.SPACE) state0 =
      (state0, [Effect.logWarn "Warning: physics was not enabled during setup",
                Effect.acceptEvent, Effect.redraw]) :=
  ⟨rfl, space_toggle_physics_disabled_no_flip env2 state0 rfl⟩

/-! ## C8: grab-mode scroll adjusts grip depth and pushes the pivot -/

/-- C8: A grab-mode scroll with a live grabber and a nonzero dominant scroll
value bumps the grip depth by the scroll value times 1/10 when the shift
modifier is held (1/100 otherwise), recomputes the anchor pivot at the new
depth along the unprojected view ray, and immediately pushes the updated
settings to the engine. -/
theorem grab_scroll_updates_grip_depth (env : Env) (offset : ℚ × ℚ) (position : Vec2i)
    (shift_pressed : Bool) (s : ViewerState) (g : MouseGrabber) (sm : ℚ)
    (hmode : s.mouse_interaction = MouseMode.GRAB)
    (hg : s.mouse_grabber = some g)
    (hsm : (if |offset.2| > |offset.1| then offset.2 else offset.1) = sm)
    (hnz : sm ≠ 0) :
    ∃ gr : MouseGrabber,
      (mouse_scroll_event env offset position shift_pressed s).1.mouse_grabber = some gr ∧
      gr.grip_depth = g.grip_depth +
        sm * (if shift_pressed then 1 / 10 else 1 / 100) ∧
      gr.settings.frame_b = env.agent_rotation ∧
      gr.settings.pivot_b =
        Vec3.add env.camera_absolute_translation
          (Vec3.smul gr.grip_depth
            (env.unproject (get_mouse_position env position)).direction) ∧
      (mouse_scroll_event env offset position shift_pressed s).2 =
        [Effect.updateConstraint g.constraint_id gr.settings, Effect.acceptEvent] := by
  have hlook : ¬ s.mouse_interaction = MouseMode.LOOK := by
    rw [hmode]
    intro h
    cases h
  simp only [mouse_scroll_event, hsm, if_neg hnz, if_neg hlook, hg, if_pos hmode,
    update_grab_position]
  exact ⟨_, rfl, rfl, rfl, rfl, rfl⟩

/-- C8 witness: scroll value +1 with the shift modifier on the grabber of
grip depth 2 yields grip depth 21/10 = 2.1, with the pivot pushed at the new
depth. -/
theorem grab_scroll_witness :
    (∃ gr : MouseGrabber,
        (mouse_scroll_event env0 (0, 1) (0, 0) true s8).1.mouse_grabber = some gr ∧
        gr.grip_depth = 2 + 1 * (1 / 10) ∧
        gr.settings.frame_b = env0.agent_rotation ∧
        gr.settings.pivot_b =
          Vec3.add env0.camera_absolute_translation
            (Vec3.smul gr.grip_depth
              (env0.unproject (get_mouse_position env0 (0, 0))).direction) ∧
        (mouse_scroll_event env0 (0, 1) (0, 0) true s8).2 =
          [Effect.updateConstraint grabber0.constraint_id gr.settings,
           Effect.acceptEvent]) ∧
    (2 : ℚ) + 1 * (1 / 10) = 21 / 10 :=
  ⟨grab_scroll_updates_grip_depth env0 (0, 1) (0, 0) true s8 grabber0 1 rfl rfl
      (by norm_num) (by norm_num),
   by norm_num⟩

/-! ## C1: the physics tick gate (corrected) -/

/-- Bounds for the accumulator reduction: for a positive modulus,
`fmod x y` lies in `[0, y)`. -/
lemma fmod_bounds (x y : ℚ) (hy : 0 < y) : 0 ≤ fmod x y ∧ fmod x y < y := by
  have hy0 : y ≠ 0 := ne_of_gt hy
  have hkey : fmod x y = y * Int.fract (x / y) := by
    rw [fmod, Int.fract, mul_sub, mul_div_cancel₀ x hy0]
  constructor
  · rw [hkey]
    exact mul_nonneg hy.le (Int.fract_nonneg _)
  · rw [hkey]
    calc y * Int.fract (x / y) < y * 1 :=
          (mul_lt_mul_left hy).mpr (Int.fract_lt_one _)
      _ = y := mul_one y

/-- `move_and_look` never touches the simulation flags or the accumulator. -/
lemma move_and_look_preserves (env : Env) (s : ViewerState) (n : ℤ) :
    (move_and_look env s n).1.simulating = s.simulating ∧
    (move_and_look env s n).1.simulate_single_step = s.simulate_single_step ∧
    (move_and_look env s n).1.time_since_last_simulation = s.time_since_last_simulation := by
  by_cases hr : n = 0
  · simp [move_and_look, hr]
  · rcases hg : s.mouse_grabber with _ | g <;>
      rcases hp : s.previous_mouse_point with _ | p <;>
        simp [move_and_look, update_grab_position, hr, hg, hp]

/-- Agent-action replays are the only agent effects of `move_and_look`, and
it never steps the world: its trace filtered to world steps is empty, and
filtered to agent actions it is exactly the held-action queue (pressed-dict
insertion order) replayed once per repetition. -/
lemma move_and_look_effects (env : Env) (s : ViewerState) (n : ℤ) :
    ((move_and_look env s n).2.filter Effect.isStepWorld) = [] ∧
    ((move_and_look env s n).2.filter Effect.isAgentAct) =
      (List.range n.toNat).flatMap
        (fun _ =>
          ((pressed_keys_order.filter s.pressed).map key_to_action).map Effect.agentAct) := by
  have hstep : ∀ (m : ℕ) (q : List String),
      (((List.range m).flatMap fun _ => q.map Effect.agentAct).filter Effect.isStepWorld) = [] := by
    intro m q
    apply List.filter_eq_nil_iff.mpr
    intro e he
    rcases List.mem_flatMap.mp he with ⟨i, -, hmem⟩
    rcases List.mem_map.mp hmem with ⟨a, -, rfl⟩
    simp [Effect.isStepWorld]
  have hact : ∀ (m : ℕ) (q : List String),
      (((List.range m).flatMap fun _ => q.map Effect.agentAct).filter Effect.isAgentAct) =
        ((List.range m).flatMap fun _ => q.map Effect.agentAct) := by
    intro m q
    apply List.filter_eq_self.mpr
    intro e he
    rcases List.mem_flatMap.mp he with ⟨i, -, hmem⟩
    rcases List.mem_map.mp hmem with ⟨a, -, rfl⟩
    rfl
  by_cases hr : n = 0
  · simp [move_and_look, hr]
  · rcases hg : s.mouse_grabber with _ | g
    · simp only [move_and_look, if_neg hr, hg]
      exact ⟨hstep _ _, hact _ _⟩
    · rcases hp : s.previous_mouse_point with _ | p
      · simp only [move_and_look, if_neg hr, hg, hp]
        exact ⟨hstep _ _, hact _ _⟩
      · simp only [move_and_look, update_grab_position, if_neg hr, hg, hp,
          List.filter_append]
        rw [hstep, hact]
        refine ⟨?_, ?_⟩ <;> simp [Effect.isStepWorld, Effect.isAgentAct]

/-- A frame taken while continuous simulation is off and no single step is
pending never steps the world, whatever the accumulated time. -/
lemma draw_event_paused_no_tick (env : Env) (d : ℚ) (s : ViewerState)
    (hs : s.simulating = false) (hss : s.simulate_single_step = false) :
    ((draw_event env d s).2.filter Effect.isStepWorld) = [] := by
  have hml := move_and_look_preserves env
    { s with time_since_last_simulation := s.time_since_last_simulation + d }
    (int_trunc ((s.time_since_last_simulation + d) * agent_acts_per_sec))
  have hmleff := move_and_look_effects env
    { s with time_since_last_simulation := s.time_since_last_simulation + d }
    (int_trunc ((s.time_since_last_simulation + d) * agent_acts_per_sec))
  have hcond : ((move_and_look env
      { s with time_since_last_simulation := s.time_since_last_simulation + d }
      (int_trunc ((s.time_since_last_simulation + d) * agent_acts_per_sec))).1.simulating ||
        (move_and_look env
      { s with time_since_last_simulation := s.time_since_last_simulation + d }
      (int_trunc ((s.time_since_last_simulation + d) * agent_acts_per_sec))).1.simulate_single_step) = false := by
    rw [hml.1, hml.2.1]
    simp [hs, hss]
  by_cases h : (1 : ℚ) / 60 ≤ s.time_since_last_simulation + d
  · simp only [draw_event, if_pos h, hcond, Bool.false_eq_true, ite_false,
      List.filter_cons, List.filter_append, List.filter_nil, hmleff.1,
      Effect.isStepWorld, List.nil_append, List.append_nil]
  · simp only [draw_event, if_neg h, List.filter_cons, List.filter_append,
      List.filter_nil, hmleff.1, Effect.isStepWorld, List.nil_append, List.append_nil]
    rfl

/-- C1 counterexample to the claim as stated: a frame whose accumulated time
(1/30) is at least one tick period, taken while continuous simulation is off
and no single step is pending, advances physics by zero ticks, not one. -/
theorem c1_paused_frame_counterexample :
    (1 / 60 : ℚ) ≤ state0.time_since_last_simulation + 1 / 30 ∧
    (((draw_event env0 (1 / 30)
        { state0 with simulating := false }).2).filter Effect.isStepWorld) = [] := by
  constructor
  · norm_num [state0]
  · exact draw_event_paused_no_tick env0 (1 / 30) { state0 with simulating := false } rfl rfl

/-- C1 amended: for every frame whose accumulated time `t` is at least one
tick period 1/60, provided continuous simulation is enabled or a single step
is pending, physics advances by exactly one fixed tick of 1/60 (never more,
however large `t` is), and the accumulator immediately afterwards equals
`t mod (1/60)`, hence lies in `[0, 1/60)`. -/
theorem draw_event_one_tick_and_residual (env : Env) (d : ℚ) (s : ViewerState)
    (h1 : 1 / 60 ≤ s.time_since_last_simulation + d)
    (h2 : s.simulating = true ∨ s.simulate_single_step = true) :
    ((draw_event env d s).2.filter Effect.isStepWorld) = [Effect.stepWorld (1 / 60)] ∧
    (draw_event env d s).1.time_since_last_simulation =
      fmod (s.time_since_last_simulation + d) (1 / 60) ∧
    0 ≤ (draw_event env d s).1.time_since_last_simulation ∧
    (draw_event env d s).1.time_since_last_simulation < 1 / 60 := by
  have hml := move_and_look_preserves env
    { s with time_since_last_simulation := s.time_since_last_simulation + d }
    (int_trunc ((s.time_since_last_simulation + d) * agent_acts_per_sec))
  have hmleff := move_and_look_effects env
    { s with time_since_last_simulation := s.time_since_last_simulation + d }
    (int_trunc ((s.time_since_last_simulation + d) * agent_acts_per_sec))
  have hcond : ((move_and_look env
      { s with time_since_last_simulation := s.time_since_last_simulation + d }
      (int_trunc ((s.time_since_last_simulation + d) * agent_acts_per_sec))).1.simulating ||
        (move_and_look env
      { s with time_since_last_simulation := s.time_since_last_simulation + d }
      (int_trunc ((s.time_since_last_simulation + d) * agent_acts_per_sec))).1.simulate_single_step) = true := by
    rcases h2 with h | h
    · rw [hml.1, h]
      rfl
    · rw [hml.2.1, h]
      simp
  have hbounds := fmod_bounds (s.time_since_last_simulation + d) (1 / 60) (by norm_num)
  have hres : (draw_event env d s).1.time_since_last_simulation =
      fmod (s.time_since_last_simulation + d) (1 / 60) := by
    simp only [draw_event, if_pos h1, hcond, if_true, ite_true]
  have hfil : ((draw_event env d s).2.filter Effect.isStepWorld) =
      [Effect.stepWorld (1 / 60)] := by
    simp only [draw_event, if_pos h1, hcond, if_true, ite_true, List.filter_cons,
      List.filter_append, hmleff.1, Effect.isStepWorld, List.nil_append, List.append_nil]
    rfl
  exact ⟨hfil, hres, by rw [hres]; exact hbounds.1, by rw [hres]; exact hbounds.2⟩

/-- C1 witness for the amended theorem: a 1/30 frame from a zero accumulator
with simulation enabled fires exactly one 1/60 tick and leaves residual
`fmod (1/30) (1/60)`. -/
theorem draw_event_one_tick_witness :
    ((draw_event env0 (1 / 30) state0).2.filter Effect.isStepWorld) =
      [Effect.stepWorld (1 / 60)] ∧
    (draw_event env0 (1 / 30) state0).1.time_since_last_simulation =
      fmod (state0.time_since_last_simulation + 1 / 30) (1 / 60) ∧
    0 ≤ (draw_event env0 (1 / 30) state0).1.time_since_last_simulation ∧
    (draw_event env0 (1 / 30) state0).1.time_since_last_simulation < 1 / 60 :=
  draw_event_one_tick_and_residual env0 (1 / 30) state0 (by norm_num [state0])
    (Or.inl rfl)

/-! ## C4: per-frame action replay -/

/-- The ten bound action names are pairwise distinct. -/
lemma key_to_action_injective : Function.Injective key_to_action := by
  intro a b h
  cases a <;> cases b <;> first | rfl | exact absurd h (by decide)

lemma agentAct_injective : Function.Injective Effect.agentAct := by
  intro a b h
  injection h

/-- Replaying a queue once per repetition multiplies each occurrence count. -/
lemma count_flatMap_const (n : ℕ) (q : List Effect) (a : Effect) :
    (((List.range n).flatMap fun _ => q).count a) = n * q.count a := by
  induction n with
  | zero => simp
  | succ m ih =>
      rw [List.range_succ, List.flatMap_append, List.count_append, ih]
      have h1 : (([m] : List ℕ).flatMap fun _ => q) = q := by simp
      rw [h1, Nat.succ_mul]

/-- Each movement key occurs exactly once in the pressed-dict key order, so
filtering by the held flags keeps one copy when held and none otherwise. -/
lemma count_filter_pressed (pressed : MovementKey → Bool) (k : MovementKey) :
    ((pressed_keys_order.filter pressed).count k) = if pressed k then 1 else 0 := by
  by_cases hp : pressed k = true
  · rw [if_pos hp, List.count_filter hp]
    cases k <;> decide
  · rw [if_neg hp]
    apply List.count_eq_zero.mpr
    intro hmem
    exact hp (List.of_mem_filter hmem)

/-- Occurrences of one bound action in the per-repetition queue. -/
lemma count_agentAct_queue (pressed : MovementKey → Bool) (k : MovementKey) :
    ((((pressed_keys_order.filter pressed).map key_to_action).map Effect.agentAct).count
        (Effect.agentAct (key_to_action k))) = if pressed k then 1 else 0 := by
  rw [List.map_map]
  have hinj : Function.Injective (Effect.agentAct ∘ key_to_action) :=
    agentAct_injective.comp key_to_action_injective
  have hcnt := List.count_map_of_injective (pressed_keys_order.filter pressed)
    (Effect.agentAct ∘ key_to_action) hinj k
  rw [show Effect.agentAct (key_to_action k) = (Effect.agentAct ∘ key_to_action) k from rfl,
    hcnt]
  exact count_filter_pressed pressed k

/-- The agent-action trace of a frame is exactly the agent-action trace of its
`move_and_look` call: the physics gate and the render tail add no agent
actions. -/
lemma draw_event_filter_agentAct (env : Env) (d : ℚ) (s : ViewerState) :
    ((draw_event env d s).2.filter Effect.isAgentAct) =
      ((move_and_look env
          { s with time_since_last_simulation := s.time_since_last_simulation + d }
          (int_trunc ((s.time_since_last_simulation + d) * agent_acts_per_sec))).2.filter
        Effect.isAgentAct) := by
  by_cases h : (1 : ℚ) / 60 ≤ s.time_since_last_simulation + d
  · by_cases hb : ((move_and_look env
        { s with time_since_last_simulation := s.time_since_last_simulation + d }
        (int_trunc ((s.time_since_last_simulation + d) * agent_acts_per_sec))).1.simulating ||
          (move_and_look env
        { s with time_since_last_simulation := s.time_since_last_simulation + d }
        (int_trunc ((s.time_since_last_simulation + d) * agent_acts_per_sec))).1.simulate_single_step) = true
    · simp only [draw_event, if_pos h, hb, ite_true, List.filter_cons,
        List.filter_append, List.filter_nil, Effect.isAgentAct, List.nil_append,
        List.append_nil]
      simp
    · rw [Bool.not_eq_true] at hb
      simp only [draw_event, if_pos h, hb, Bool.false_eq_true, ite_false,
        List.filter_cons, List.filter_append, List.filter_nil, Effect.isAgentAct,
        List.nil_append, List.append_nil]
  · simp only [draw_event, if_neg h, List.filter_cons, List.filter_append,
      List.filter_nil, Effect.isAgentAct, List.nil_append, List.append_nil]
    simp

/-- C4: In a frame with nonnegative accumulator and frame duration, the agent
actions issued are exactly `n = ⌊t * 60⌋` replays of the held-action queue in
the fixed insertion order of the binding table (so the relative order of
simultaneously held actions never depends on press arrival), and each held
key's bound action is applied exactly `n` times while unheld keys contribute
nothing. -/
theorem draw_event_actions_per_frame (env : Env) (d : ℚ) (s : ViewerState)
    (k : MovementKey)
    (h0 : 0 ≤ s.time_since_last_simulation) (hd : 0 ≤ d) :
    ((draw_event env d s).2.filter Effect.isAgentAct) =
      (List.range (⌊(s.time_since_last_simulation + d) * 60⌋).toNat).flatMap
        (fun _ =>
          ((pressed_keys_order.filter s.pressed).map key_to_action).map Effect.agentAct) ∧
    ((draw_event env d s).2.filter Effect.isAgentAct).count
        (Effect.agentAct (key_to_action k)) =
      if s.pressed k then (⌊(s.time_since_last_simulation + d) * 60⌋).toNat else 0 := by
  have hmleff := move_and_look_effects env
    { s with time_since_last_simulation := s.time_since_last_simulation + d }
    (int_trunc ((s.time_since_last_simulation + d) * agent_acts_per_sec))
  have htr : int_trunc ((s.time_since_last_simulation + d) * agent_acts_per_sec) =
      ⌊(s.time_since_last_simulation + d) * 60⌋ := by
    rw [int_trunc, if_pos]
    · rfl
    · exact mul_nonneg (add_nonneg h0 hd) (by norm_num [agent_acts_per_sec])
  have hfil : ((draw_event env d s).2.filter Effect.isAgentAct) =
      (List.range (⌊(s.time_since_last_simulation + d) * 60⌋).toNat).flatMap
        (fun _ =>
          ((pressed_keys_order.filter s.pressed).map key_to_action).map Effect.agentAct) := by
    rw [draw_event_filter_agentAct env d s]
    rw [hmleff.2, htr]
  refine ⟨hfil, ?_⟩
  rw [hfil, count_flatMap_const, count_agentAct_queue]
  by_cases hp : s.pressed k = true
  · rw [if_pos hp, if_pos hp, Nat.mul_one]
  · rw [if_neg hp, if_neg hp, Nat.mul_zero]

/-- Movement keys A and W held simultaneously. -/
def pressedAW : MovementKey → Bool
  | .A => true
  | .W => true
  | _ => false

def s4 : ViewerState := { state0 with pressed := pressedAW }

/-- C4 witness: a 1/30 frame (2 ticks) with A and W held replays the queue
twice — `move_left` before `move_forward` in both repetitions, the insertion
order of the binding table — and the A action is counted exactly twice. -/
theorem draw_event_actions_per_frame_witness :
    (0 : ℚ) ≤ s4.time_since_last_simulation ∧ (0 : ℚ) ≤ 1 / 30 ∧
    (((draw_event env0 (1 / 30) s4).2.filter Effect.isAgentAct) =
      (List.range (⌊(s4.time_since_last_simulation + 1 / 30) * 60⌋).toNat).flatMap
        (fun _ =>
          ((pressed_keys_order.filter s4.pressed).map key_to_action).map Effect.agentAct) ∧
      ((draw_event env0 (1 / 30) s4).2.filter Effect.isAgentAct).count
          (Effect.agentAct (key_to_action MovementKey.A)) =
        if s4.pressed MovementKey.A then
          (⌊(s4.time_since_last_simulation + 1 / 30) * 60⌋).toNat else 0) ∧
    ((draw_event env0 (1 / 30) s4).2.filter Effect.isAgentAct) =
      [Effect.agentAct "move_left", Effect.agentAct "move_forward",
       Effect.agentAct "move_left", Effect.agentAct "move_forward"] := by
  have h := draw_event_actions_per_frame env0 (1 / 30) s4 MovementKey.A
    (by norm_num [s4, state0]) (by norm_num)
  refine ⟨by norm_num [s4, state0], by norm_num, h, ?_⟩
  rw [h.1]
  have hf : (⌊(s4.time_since_last_simulation + 1 / 30) * 60⌋ : ℤ) = 2 := by
    norm_num [s4, state0]
  rw [hf]
  decide

/-! ## C3 and C7: the grab-mode pick -/

/-- A grab-mode press on a resolved hit, in full: the handler checks GRAB
mode and the physics library, the ray hit, the resolution and the id sign —
and never the current grabber — then assigns a fresh grabber (creating the
engine constraint; a replaced grabber's finalizer removes the old one),
records the scaled point, redraws and accepts. -/
lemma mouse_press_resolved (env : Env) (button : MouseButton) (position : Vec2i)
    (s : ViewerState) (hit_info : HitInfo) (rest : List HitInfo)
    (hit_object ao_link : ℤ) (object_pivot : Vec3) (object_frame : Mat3)
    (hmode : s.mouse_interaction = MouseMode.GRAB)
    (hpe : env.physics_enabled = true)
    (hcast : env.cast_ray (env.unproject (get_mouse_position env position)) =
      hit_info :: rest)
    (hid : 0 ≤ hit_info.object_id)
    (hres : resolve_hit env hit_info =
      HitResolution.found hit_object ao_link object_pivot object_frame)
    (hobj : 0 ≤ hit_object) :
    mouse_press_event env button position s =
      ({ s with
          mouse_grabber := some
            ⟨build_grab_constraint_settings env button hit_object ao_link object_pivot
                object_frame hit_info.point,
              env.vec_length (Vec3.sub hit_info.point env.camera_absolute_translation),
              s.next_constraint_id⟩,
          next_constraint_id := s.next_constraint_id + 1,
          previous_mouse_point := some (get_mouse_position env position) },
       (Effect.createConstraint s.next_constraint_id
          (build_grab_constraint_settings env button hit_object ao_link object_pivot
            object_frame hit_info.point) ::
        (match s.mouse_grabber with
         | some old => [Effect.removeConstraint old.constraint_id]
         | none => [])) ++ [Effect.redraw, Effect.acceptEvent]) := by
  simp only [mouse_press_event, if_pos (And.intro hmode hpe), hcast, hres,
    if_pos hid, if_pos hobj]

/-- C3 counterexample to the claim as stated: in GRAB mode with a grabber
already live (constraint 0), a press on a resolved hit does re-pick — the
stored grabber changes and a fresh engine constraint is created — so "press
creates a new GrabberState only when none exists" is false of the code. -/
theorem c3_press_repicks_counterexample :
    s3.mouse_grabber = some grabber0 ∧
    (mouse_press_event env3 MouseButton.LEFT (0, 0) s3).1.mouse_grabber ≠ some grabber0 ∧
    ((mouse_press_event env3 MouseButton.LEFT (0, 0) s3).2.any (fun e =>
        match e with
        | Effect.createConstraint _ _ => true
        | _ => false)) = true := by
  refine ⟨rfl, ?_, ?_⟩
  · decide
  · decide

/-- C3 amended: a grab-mode press on a resolved hit always performs a fresh
pick — the handler has no no-grabber precondition — installing a new
GrabberState with a newly created engine constraint and replacing whatever
grabber existed; the single optional handle still refers to at most one
GrabberState afterwards (the replaced grabber's constraint is removed by its
finalizer on rebinding). -/
theorem mouse_press_always_repicks (env : Env) (button : MouseButton) (position : Vec2i)
    (s : ViewerState) (hit_info : HitInfo) (rest : List HitInfo)
    (hit_object ao_link : ℤ) (object_pivot : Vec3) (object_frame : Mat3)
    (hmode : s.mouse_interaction = MouseMode.GRAB)
    (hpe : env.physics_enabled = true)
    (hcast : env.cast_ray (env.unproject (get_mouse_position env position)) =
      hit_info :: rest)
    (hid : 0 ≤ hit_info.object_id)
    (hres : resolve_hit env hit_info =
      HitResolution.found hit_object ao_link object_pivot object_frame)
    (hobj : 0 ≤ hit_object) :
    (mouse_press_event env button position s).1.mouse_grabber =
      some ⟨build_grab_constraint_settings env button hit_object ao_link object_pivot
              object_frame hit_info.point,
            env.vec_length (Vec3.sub hit_info.point env.camera_absolute_translation),
            s.next_constraint_id⟩ ∧
    (mouse_press_event env button position s).1.next_constraint_id =
      s.next_constraint_id + 1 ∧
    Effect.createConstraint s.next_constraint_id
        (build_grab_constraint_settings env button hit_object ao_link object_pivot
          object_frame hit_info.point) ∈ (mouse_press_event env button position s).2 := by
  rw [mouse_press_resolved env button position s hit_info rest hit_object ao_link
    object_pivot object_frame hmode hpe hcast hid hres hobj]
  exact ⟨rfl, rfl, List.mem_append_left _ (List.mem_cons_self _ _)⟩

/-- C3 witness: the amended statement at the concrete scene with a live
grabber — the press while a grabber exists installs the fresh grabber with
engine constraint 1. -/
theorem mouse_press_always_repicks_witness :
    (mouse_press_event env3 MouseButton.LEFT (0, 0) s3).1.mouse_grabber =
      some ⟨build_grab_constraint_settings env3 MouseButton.LEFT 7 (-1) ⟨1, 2, 3⟩
              Mat3.identity ⟨1, 2, 3⟩,
            env3.vec_length (Vec3.sub ⟨1, 2, 3⟩ env3.camera_absolute_translation),
            s3.next_constraint_id⟩ ∧
    (mouse_press_event env3 MouseButton.LEFT (0, 0) s3).1.next_constraint_id =
      s3.next_constraint_id + 1 ∧
    Effect.createConstraint s3.next_constraint_id
        (build_grab_constraint_settings env3 MouseButton.LEFT 7 (-1) ⟨1, 2, 3⟩
          Mat3.identity ⟨1, 2, 3⟩) ∈ (mouse_press_event env3 MouseButton.LEFT (0, 0) s3).2 :=
  mouse_press_always_repicks env3 MouseButton.LEFT (0, 0) s3 ⟨7, ⟨1, 2, 3⟩⟩ [] 7 (-1)
    ⟨1, 2, 3⟩ Mat3.identity rfl rfl rfl (by norm_num) rfl (by norm_num)

/-- GRAB mode with no grabber yet, used by the C7 witness. -/
def s7 : ViewerState := { state0 with mouse_interaction := MouseMode.GRAB }

/-- C7: For one and the same resolved grab-mode pick, the secondary (right)
button yields a constraint of kind Fixed and the primary (left) button one
of kind PointToPoint, while every other field of the constructed
ConstraintSpec — ids, pivots, frames — and the grip depth are identical. -/
theorem constraint_kind_matches_button (env : Env) (position : Vec2i)
    (s : ViewerState) (hit_info : HitInfo) (rest : List HitInfo)
    (hit_object ao_link : ℤ) (object_pivot : Vec3) (object_frame : Mat3)
    (hmode : s.mouse_interaction = MouseMode.GRAB)
    (hpe : env.physics_enabled = true)
    (hcast : env.cast_ray (env.unproject (get_mouse_position env position)) =
      hit_info :: rest)
    (hid : 0 ≤ hit_info.object_id)
    (hres : resolve_hit env hit_info =
      HitResolution.found hit_object ao_link object_pivot object_frame)
    (hobj : 0 ≤ hit_object) :
    ∃ gR gL : MouseGrabber,
      (mouse_press_event env MouseButton.RIGHT position s).1.mouse_grabber = some gR ∧
      (mouse_press_event env MouseButton.LEFT position s).1.mouse_grabber = some gL ∧
      gR.settings.constraint_type = RigidConstraintType.Fixed ∧
      gL.settings.constraint_type = RigidConstraintType.PointToPoint ∧
      gR.settings = { gL.settings with constraint_type := RigidConstraintType.Fixed } ∧
      gR.grip_depth = gL.grip_depth := by
  rw [mouse_press_resolved env MouseButton.RIGHT position s hit_info rest hit_object
      ao_link object_pivot object_frame hmode hpe hcast hid hres hobj,
    mouse_press_resolved env MouseButton.LEFT position s hit_info rest hit_object
      ao_link object_pivot object_frame hmode hpe hcast hid hres hobj]
  exact ⟨_, _, rfl, rfl, rfl, rfl, rfl, rfl⟩

/-- C7 witness: on the concrete resolved pick, the right button produces the
Fixed-kind settings and the left button the PointToPoint-kind settings with
all other fields equal. -/
theorem constraint_kind_matches_button_witness :
    ∃ gR gL : MouseGrabber,
      (mouse_press_event env3 MouseButton.RIGHT (0, 0) s7).1.mouse_grabber = some gR ∧
      (mouse_press_event env3 MouseButton.LEFT (0, 0) s7).1.mouse_grabber = some gL ∧
      gR.settings.constraint_type = RigidConstraintType.Fixed ∧
      gL.settings.constraint_type = RigidConstraintType.PointToPoint ∧
      gR.settings = { gL.settings with constraint_type := RigidConstraintType.Fixed } ∧
      gR.grip_depth = gL.grip_depth :=
  constraint_kind_matches_button env3 (0, 0) s7 ⟨7, ⟨1, 2, 3⟩⟩ [] 7 (-1) ⟨1, 2, 3⟩
    Mat3.identity rfl rfl rfl (by norm_num) rfl (by norm_num)

end Viewer
